import Mathlib

/-!
Verification of the CloudContext Python client (`src/clients/python/client.py`).

The client is a thin asynchronous HTTP wrapper: a `CloudContext` instance holds
a base URL, an API key, a default context identifier and an optional session
handle, and exposes four operations (`save`, `get`, `delete`, `list`), each of
which builds headers, issues exactly one HTTP request, and either unwraps the
JSON response body or raises.

The embedding below models the HTTP transport as an oracle
`Request → Response`; each operation returns the (unchanged) client, the list
of requests it issued, and either a result or the Python exception it raises.
Python-specific behaviours that matter to the contract are modelled
explicitly: the truthiness-based `or` fallback on optional arguments, and the
keyword-argument discipline of `SaveResult(**data)` (a dataclass call rejects
both missing and unexpected keyword arguments, and checks no field types at
runtime).
-/

/-- JSON values exchanged with the service. Numbers are modelled as integers,
which covers every payload the specification mentions. Objects are ordered
field lists, matching the insertion order a Python `dict` preserves. -/
inductive JVal where
  | null
  | bool (b : Bool)
  | num (n : Int)
  | str (s : String)
  | arr (elems : List JVal)
  | obj (fields : List (String × JVal))
  deriving Repr

/-- First-match association lookup on a JSON object's field list, modelling
`data[key]` / key membership on the Python `dict` produced by JSON parsing
(whose keys are unique). -/
def lookupField (fields : List (String × JVal)) (k : String) : Option JVal :=
  match fields with
  | [] => none
  | (k', v) :: rest => if k' = k then some v else lookupField rest k

/-- Errors a client call can raise, one constructor per distinct raise site in
the Python code:
`exception msg` is the explicit `raise Exception(f"Failed to ...")` on a
non-200 status; `jsonDecodeError` is the error `resp.json()` raises when the
body is not valid JSON; `typeError` is the `TypeError` raised by
`SaveResult(**data)` on a keyword-argument mismatch or a non-mapping, and by
subscripting a non-dict; `keyError` is the `KeyError` raised by
`data["contexts"]` when the key is absent. -/
inductive PyError where
  | exception (msg : String)
  | jsonDecodeError
  | typeError
  | keyError
  deriving Repr, DecidableEq

/-- Whether an error is one of the explicitly raised
`Exception("Failed to ...")` values, the kind the specification calls
`RequestFailed`. -/
def PyError.isRequestFailed : PyError → Bool
  | .exception _ => true
  | _ => false

/-- Python `a or b` where `a : Optional[str]`: `a` is returned when it is
neither `None` nor falsy, and the empty string is falsy. Models
`context_id or self.context_id` in `save`, `get` and `delete`. -/
def pyOrStr (a : Option String) (b : String) : String :=
  match a with
  | none => b
  | some s => if s = "" then b else s

/-- Python `metadata or {}` where `metadata : Optional[Dict]`: `None` and the
empty dict are falsy and give `{}`; any non-empty dict is returned itself. -/
def pyOrDict (a : Option (List (String × JVal))) : List (String × JVal) :=
  match a with
  | none => []
  | some m => if m.isEmpty then [] else m

/-- An HTTP response as the client observes it: `status` is `resp.status`,
`bodyText` is `await resp.text()`, and `bodyJson` is `await resp.json()`,
with `none` meaning that call raises because the body is not valid JSON. -/
structure Response where
  status : Nat
  bodyText : String
  bodyJson : Option JVal
  deriving Repr

/-- HTTP method of a request the client issues. -/
inductive Method where
  | POST
  | GET
  | DELETE
  deriving Repr, DecidableEq

/-- An HTTP request as the client builds it: method, full URL, header list,
and the JSON payload for `json=payload` when present. -/
structure Request where
  method : Method
  url : String
  headers : List (String × String)
  body : Option JVal
  deriving Repr

/-- First-match lookup of a header value by name. -/
def lookupHeader (headers : List (String × String)) (k : String) : Option String :=
  match headers with
  | [] => none
  | (k', v) :: rest => if k' = k then some v else lookupHeader rest k

/-- The `SaveResult` dataclass. A Python dataclass checks no field types at
runtime, so each field holds whatever JSON value the response supplied. -/
structure SaveResult where
  success : JVal
  context_id : JVal
  version : JVal
  timestamp : JVal
  deriving Repr

/-- The keyword parameter names `SaveResult.__init__` accepts. -/
def saveResultKeys : List String := ["success", "context_id", "version", "timestamp"]

/-- `SaveResult(**data)`: fails with `TypeError` unless `data` is a mapping
whose keys are exactly the four dataclass field names (an unexpected keyword
argument or a missing one both raise); field values are not validated. -/
def mkSaveResult (data : JVal) : Except PyError SaveResult :=
  match data with
  | .obj fields =>
    if fields.all (fun kv => kv.1 ∈ saveResultKeys) then
      match lookupField fields "success", lookupField fields "context_id",
            lookupField fields "version", lookupField fields "timestamp" with
      | some s, some c, some v, some t => .ok ⟨s, c, v, t⟩
      | _, _, _, _ => .error .typeError
    else .error .typeError
  | _ => .error .typeError

/-- Python `s.rstrip('/')`: removes every trailing `'/'` character. -/
def rstripSlash (s : String) : String :=
  ⟨(s.data.reverse.dropWhile (fun c => c = '/')).reverse⟩

/-- The client instance: connection configuration plus the owned session
handle (`None` until the scoped session is entered). Sessions are identified
by a number issued by the session world below. -/
structure CloudContext where
  base_url : String
  api_key : String
  context_id : String
  session : Option Nat
  deriving Repr, DecidableEq

/-- `CloudContext.__init__(base_url, api_key, context_id)`: strips any
trailing slash from the base URL and leaves the session unset. -/
def CloudContext.init (base_url api_key context_id : String) : CloudContext :=
  { base_url := rstripSlash base_url
    api_key := api_key
    context_id := context_id
    session := none }

/-- `CloudContext.__init__` with the `context_id` parameter omitted: the
parameter's declared default is the string `"default"`. -/
def CloudContext.initDefault (base_url api_key : String) : CloudContext :=
  CloudContext.init base_url api_key "default"

/-- Outcome of one client call: the client as it stands afterwards, the list
of HTTP requests the call issued, and the returned value or raised error. -/
structure CallResult (α : Type) where
  client : CloudContext
  requests : List Request
  result : Except PyError α
  deriving Repr

/-- `CloudContext.save(content, metadata=None, context_id=None)`: resolves the
effective context id by `context_id or self.context_id`, POSTs
`{'content': content, 'metadata': metadata or {}}` to `{base_url}/api/context`
with bearer and context-id headers, raises `Exception` with the body text on a
non-200 status, and otherwise builds a `SaveResult` from the JSON body. -/
def CloudContext.save (c : CloudContext) (content : JVal)
    (metadata : Option (List (String × JVal))) (context_id : Option String)
    (transport : Request → Response) : CallResult SaveResult :=
  let ctx_id := pyOrStr context_id c.context_id
  let headers := [("Authorization", "Bearer " ++ c.api_key), ("X-Context-ID", ctx_id)]
  let payload : JVal := .obj [("content", content), ("metadata", .obj (pyOrDict metadata))]
  let req : Request := ⟨.POST, c.base_url ++ "/api/context", headers, some payload⟩
  let resp := transport req
  let result : Except PyError SaveResult :=
    if resp.status ≠ 200 then
      .error (.exception ("Failed to save context: " ++ resp.bodyText))
    else
      match resp.bodyJson with
      | none => .error .jsonDecodeError
      | some data => mkSaveResult data
  ⟨c, [req], result⟩

/-- `CloudContext.get(context_id=None)`: same header construction as `save`,
GETs `{base_url}/api/context`, raises `Exception` with the body text on a
non-200 status, and otherwise returns the parsed JSON body verbatim. -/
def CloudContext.get (c : CloudContext) (context_id : Option String)
    (transport : Request → Response) : CallResult JVal :=
  let ctx_id := pyOrStr context_id c.context_id
  let headers := [("Authorization", "Bearer " ++ c.api_key), ("X-Context-ID", ctx_id)]
  let req : Request := ⟨.GET, c.base_url ++ "/api/context", headers, none⟩
  let resp := transport req
  let result : Except PyError JVal :=
    if resp.status ≠ 200 then
      .error (.exception ("Failed to get context: " ++ resp.bodyText))
    else
      match resp.bodyJson with
      | none => .error .jsonDecodeError
      | some data => .ok data
  ⟨c, [req], result⟩

/-- `CloudContext.delete(context_id=None)`: same header construction, DELETEs
`{base_url}/api/context`, raises `Exception` with the body text on a non-200
status, and otherwise returns `True` without reading the body. -/
def CloudContext.delete (c : CloudContext) (context_id : Option String)
    (transport : Request → Response) : CallResult Bool :=
  let ctx_id := pyOrStr context_id c.context_id
  let headers := [("Authorization", "Bearer " ++ c.api_key), ("X-Context-ID", ctx_id)]
  let req : Request := ⟨.DELETE, c.base_url ++ "/api/context", headers, none⟩
  let resp := transport req
  let result : Except PyError Bool :=
    if resp.status ≠ 200 then
      .error (.exception ("Failed to delete context: " ++ resp.bodyText))
    else
      .ok true
  ⟨c, [req], result⟩

/-- `CloudContext.list()`: GETs `{base_url}/api/context/list` with only the
bearer header, raises `Exception` with the body text on a non-200 status,
and otherwise returns `data['contexts']` from the parsed JSON body. -/
def CloudContext.list (c : CloudContext)
    (transport : Request → Response) : CallResult JVal :=
  let headers := [("Authorization", "Bearer " ++ c.api_key)]
  let req : Request := ⟨.GET, c.base_url ++ "/api/context/list", headers, none⟩
  let resp := transport req
  let result : Except PyError JVal :=
    if resp.status ≠ 200 then
      .error (.exception ("Failed to list contexts: " ++ resp.bodyText))
    else
      match resp.bodyJson with
      | none => .error .jsonDecodeError
      | some data =>
        match data with
        | .obj fields =>
          match lookupField fields "contexts" with
          | some v => .ok v
          | none => .error .keyError
        | _ => .error .typeError
  ⟨c, [req], result⟩

/-- The `X-Context-ID` header of a request, when present. -/
def ctxHeader (r : Request) : Option String :=
  lookupHeader r.headers "X-Context-ID"

/-- Bookkeeping for network sessions: the next fresh session id, the ids of
sessions created so far, and the ids of sessions closed so far. -/
structure SessionWorld where
  nextId : Nat
  created : List Nat
  closed : List Nat
  deriving Repr, DecidableEq

/-- `CloudContext.__aenter__`: creates a fresh `aiohttp.ClientSession`, stores
it on `self.session`, and returns the client. -/
def CloudContext.aenter (c : CloudContext) (w : SessionWorld) :
    CloudContext × SessionWorld :=
  let sid := w.nextId
  ({ c with session := some sid },
   { nextId := sid + 1, created := sid :: w.created, closed := w.closed })

/-- `CloudContext.__aexit__`: closes `self.session` when one is set. -/
def CloudContext.aexit (c : CloudContext) (w : SessionWorld) : SessionWorld :=
  match c.session with
  | some sid => { w with closed := sid :: w.closed }
  | none => w

/-- The semantics of `async with client: body` around `CloudContext`:
`__aenter__` runs first, then the body (which may end normally or with an
exception, and may itself act on the session world), and `__aexit__` runs on
every exit path — that unconditional final call is what the `async with`
protocol guarantees. -/
def withClient (c : CloudContext) (w : SessionWorld)
    (body : CloudContext → SessionWorld → SessionWorld × Except PyError Unit) :
    SessionWorld × Except PyError Unit :=
  let (c', w1) := c.aenter w
  let (w2, res) := body c' w1
  (c'.aexit w2, res)

/-- Every field lookup failing or succeeding is decided by the catch-all of
`mkSaveResult`: whenever at least one of the four required keys is absent,
`SaveResult(**data)` raises `TypeError`. -/
theorem mkSaveResult_missing_key (fields : List (String × JVal))
    (h : lookupField fields "success" = none ∨ lookupField fields "context_id" = none ∨
         lookupField fields "version" = none ∨ lookupField fields "timestamp" = none) :
    mkSaveResult (.obj fields) = .error .typeError := by
  cases h1 : lookupField fields "success" <;>
  cases h2 : lookupField fields "context_id" <;>
  cases h3 : lookupField fields "version" <;>
  cases h4 : lookupField fields "timestamp" <;>
    simp_all [mkSaveResult]

/-- C1: on any HTTP status at or above 400, each of the four operations raises
the explicitly constructed exception whose message is exactly
`"Failed to {verb} context(s): {body text}"`, with the verb and the
singular/plural form matching the operation (`save`/`get`/`delete` say
`context`, `list` says `contexts`). -/
theorem request_failures_raise_exact_messages
    (c : CloudContext) (content : JVal) (metadata : Option (List (String × JVal)))
    (context_id : Option String) (resp : Response) (h : 400 ≤ resp.status) :
    (c.save content metadata context_id (fun _ => resp)).result
        = .error (.exception ("Failed to save context: " ++ resp.bodyText)) ∧
    (c.get context_id (fun _ => resp)).result
        = .error (.exception ("Failed to get context: " ++ resp.bodyText)) ∧
    (c.delete context_id (fun _ => resp)).result
        = .error (.exception ("Failed to delete context: " ++ resp.bodyText)) ∧
    (c.list (fun _ => resp)).result
        = .error (.exception ("Failed to list contexts: " ++ resp.bodyText)) := by
  have hne : resp.status ≠ 200 := by omega
  refine ⟨?_, ?_, ?_, ?_⟩ <;>
    simp [CloudContext.save, CloudContext.get, CloudContext.delete, CloudContext.list, hne]

/-- C1 witness: the spec's own scenario — `get` against a mock returning
`403 "Forbidden"` raises with message `"Failed to get context: Forbidden"`. -/
theorem request_failures_raise_exact_messages_witness :
    400 ≤ (403 : Nat) ∧
    ((CloudContext.init "https://x.test" "k" "default").get none
        (fun _ => ⟨403, "Forbidden", none⟩)).result
      = .error (.exception "Failed to get context: Forbidden") :=
  ⟨by omega,
   (request_failures_raise_exact_messages (CloudContext.init "https://x.test" "k" "default")
      .null none none ⟨403, "Forbidden", none⟩ (by decide)).2.1⟩

/-- C6: constructing a client with base URL `"https://x.test/"` yields the
effective base URL `"https://x.test"`, and constructing without a context
identifier yields the default identifier `"default"`. -/
theorem init_strips_slash_and_defaults_context :
    (CloudContext.init "https://x.test/" "k" "ctx").base_url = "https://x.test" ∧
    (CloudContext.initDefault "https://x.test" "k").context_id = "default" := by
  constructor <;> decide

/-- C8: on a 200 response `delete` returns `true`, whatever the response body
text or JSON is — the body is never consulted. -/
theorem delete_returns_true_on_200
    (c : CloudContext) (context_id : Option String) (resp : Response)
    (h : resp.status = 200) :
    (c.delete context_id (fun _ => resp)).result = .ok true := by
  simp [CloudContext.delete, h]

/-- C8 witness: `delete` at a concrete 200 response with a non-trivial body
returns `true`. -/
theorem delete_returns_true_on_200_witness :
    ((CloudContext.init "https://x.test" "k" "default").delete none
        (fun _ => ⟨200, "arbitrary body", some (.str "ignored")⟩)).result = .ok true :=
  delete_returns_true_on_200 _ none _ rfl

/-- C9: entering the scoped session acquisition stores a freshly created
session on the client and records its creation, and that session is closed on
every exit from the scope — for any body whatsoever, ending normally or with
an exception. -/
theorem session_closed_on_every_exit
    (c : CloudContext) (w : SessionWorld)
    (body : CloudContext → SessionWorld → SessionWorld × Except PyError Unit) :
    (c.aenter w).1.session = some w.nextId ∧
    w.nextId ∈ (c.aenter w).2.created ∧
    w.nextId ∈ (withClient c w body).1.closed := by
  refine ⟨rfl, by simp [CloudContext.aenter], ?_⟩
  unfold withClient CloudContext.aenter CloudContext.aexit
  simp

/-- C10: none of the four operations changes the client: base URL, API key,
default context identifier and session handle are all exactly as before the
call, whether the call succeeds or raises. -/
theorem operations_leave_client_unchanged
    (c : CloudContext) (content : JVal) (metadata : Option (List (String × JVal)))
    (context_id : Option String) (transport : Request → Response) :
    (c.save content metadata context_id transport).client = c ∧
    (c.get context_id transport).client = c ∧
    (c.delete context_id transport).client = c ∧
    (c.list transport).client = c :=
  ⟨rfl, rfl, rfl, rfl⟩

/-- C2 counterexample: supplying the explicit context identifier `""` does not
put `""` in the `X-Context-ID` header — Python's `context_id or
self.context_id` treats the empty string as falsy, so the header carries the
client's default `"default"` instead of the supplied argument. -/
theorem explicit_empty_context_id_falls_back :
    ((CloudContext.init "https://x.test" "k" "default").save .null none (some "")
        (fun _ => ⟨200, "", none⟩)).requests.map ctxHeader = [some "default"] ∧
    (some "default" : Option String) ≠ some "" := by
  exact ⟨rfl, by decide⟩

/-- C2 amended: `save`, `get` and `delete` send the `X-Context-ID` header
equal to the explicit argument whenever a non-empty one is provided; when the
argument is omitted — or provided as the empty string, which Python's `or`
treats as absent — the header carries the client's configured default.
`list` sends no `X-Context-ID` header at all. -/
theorem context_header_resolution
    (c : CloudContext) (content : JVal) (metadata : Option (List (String × JVal)))
    (transport : Request → Response) :
    (∀ s : String, s ≠ "" →
      (c.save content metadata (some s) transport).requests.map ctxHeader = [some s] ∧
      (c.get (some s) transport).requests.map ctxHeader = [some s] ∧
      (c.delete (some s) transport).requests.map ctxHeader = [some s]) ∧
    ((c.save content metadata none transport).requests.map ctxHeader
        = [some c.context_id] ∧
     (c.get none transport).requests.map ctxHeader = [some c.context_id] ∧
     (c.delete none transport).requests.map ctxHeader = [some c.context_id]) ∧
    ((c.save content metadata (some "") transport).requests.map ctxHeader
        = [some c.context_id] ∧
     (c.get (some "") transport).requests.map ctxHeader = [some c.context_id] ∧
     (c.delete (some "") transport).requests.map ctxHeader = [some c.context_id]) ∧
    (c.list transport).requests.map ctxHeader = [none] := by
  refine ⟨fun s hs => ?_, ?_, ?_, ?_⟩
  · exact by
      refine ⟨?_, ?_, ?_⟩ <;>
        simp [CloudContext.save, CloudContext.get, CloudContext.delete,
          ctxHeader, lookupHeader, pyOrStr, hs]
  · refine ⟨?_, ?_, ?_⟩ <;>
      simp [CloudContext.save, CloudContext.get, CloudContext.delete,
        ctxHeader, lookupHeader, pyOrStr]
  · refine ⟨?_, ?_, ?_⟩ <;>
      simp [CloudContext.save, CloudContext.get, CloudContext.delete,
        ctxHeader, lookupHeader, pyOrStr]
  · simp [CloudContext.list, ctxHeader, lookupHeader]

/-- C2 witness: a concrete non-empty explicit identifier `"c1"` appears
verbatim in the header of a `save` call. -/
theorem context_header_resolution_witness :
    ("c1" : String) ≠ "" ∧
    ((CloudContext.init "https://x.test" "k" "default").save .null none (some "c1")
        (fun _ => ⟨200, "", none⟩)).requests.map ctxHeader = [some "c1"] :=
  ⟨by decide,
   ((context_header_resolution (CloudContext.init "https://x.test" "k" "default")
      .null none (fun _ => ⟨200, "", none⟩)).1 "c1" (by decide)).1⟩

/-- A response body carrying exactly the four `SaveResult` fields, as in the
specification's save scenario. -/
def fourFieldBody : List (String × JVal) :=
  [("success", .bool true), ("context_id", .str "c"),
   ("version", .num 1), ("timestamp", .str "T")]

/-- C3 counterexample: a 200 body carrying the four required fields plus one
additional field `"extra"` does not yield a `SaveResult` — `SaveResult(**data)`
rejects the unexpected keyword argument with a `TypeError`. -/
theorem save_extra_field_not_accepted :
    ((CloudContext.init "https://x.test" "k" "default").save (.obj [("k", .num 1)]) none none
        (fun _ => ⟨200, "", some (.obj (fourFieldBody ++ [("extra", .null)]))⟩)).result
      = .error .typeError := by
  rfl

/-- C3 amended: on a 200 response whose JSON body is an object whose keys all
lie among the four `SaveResult` field names and which contains each of the
four, `save` returns a `SaveResult` carrying the four looked-up values
verbatim, with no validation of the field values themselves; a body with any
additional field is rejected rather than accepted. -/
theorem save_success_exact_fields
    (c : CloudContext) (content : JVal) (metadata : Option (List (String × JVal)))
    (context_id : Option String) (resp : Response)
    (fields : List (String × JVal)) (s cid v t : JVal)
    (hstatus : resp.status = 200)
    (hjson : resp.bodyJson = some (.obj fields))
    (hkeys : fields.all (fun kv => kv.1 ∈ saveResultKeys) = true)
    (hs : lookupField fields "success" = some s)
    (hcid : lookupField fields "context_id" = some cid)
    (hv : lookupField fields "version" = some v)
    (ht : lookupField fields "timestamp" = some t) :
    (c.save content metadata context_id (fun _ => resp)).result = .ok ⟨s, cid, v, t⟩ := by
  simp [CloudContext.save, hstatus, hjson, mkSaveResult, hkeys, hs, hcid, hv, ht]

/-- C3 witness: the specification's scenario — `save` against a mock returning
`200 {"success": true, "context_id": "c", "version": 1, "timestamp": "T"}`
yields a `SaveResult` with those four values verbatim. -/
theorem save_success_exact_fields_witness :
    ((CloudContext.init "https://x.test" "k" "default").save (.obj [("k", .num 1)]) none none
        (fun _ => ⟨200, "", some (.obj fourFieldBody)⟩)).result
      = .ok ⟨.bool true, .str "c", .num 1, .str "T"⟩ :=
  save_success_exact_fields _ _ _ _ _ fourFieldBody _ _ _ _
    rfl rfl (by decide) rfl rfl rfl rfl

/-- C4: on a 200 response, a body that is not valid JSON makes `save` fail
with the JSON decode error, and a JSON-object body missing any one of the
four required fields makes it fail with `TypeError`; neither of these error
kinds is the explicitly raised `RequestFailed`-style exception used for
non-success HTTP statuses. -/
theorem save_decode_failures_distinct_kind
    (c : CloudContext) (content : JVal) (metadata : Option (List (String × JVal)))
    (context_id : Option String) (resp : Response)
    (hstatus : resp.status = 200) :
    (resp.bodyJson = none →
      (c.save content metadata context_id (fun _ => resp)).result
        = .error .jsonDecodeError) ∧
    (∀ fields : List (String × JVal), resp.bodyJson = some (.obj fields) →
      (lookupField fields "success" = none ∨ lookupField fields "context_id" = none ∨
       lookupField fields "version" = none ∨ lookupField fields "timestamp" = none) →
      (c.save content metadata context_id (fun _ => resp)).result
        = .error .typeError) ∧
    PyError.isRequestFailed .jsonDecodeError = false ∧
    PyError.isRequestFailed .typeError = false := by
  refine ⟨fun hnone => ?_, fun fields hjson hmiss => ?_, rfl, rfl⟩
  · simp [CloudContext.save, hstatus, hnone]
  · simp [CloudContext.save, hstatus, hjson, mkSaveResult_missing_key fields hmiss]

/-- C4 witness: a 200 response whose body is not valid JSON makes `save` fail
with the decode error. -/
theorem save_decode_failures_distinct_kind_witness :
    ((CloudContext.init "https://x.test" "k" "default").save .null none none
        (fun _ => ⟨200, "not json", none⟩)).result = .error .jsonDecodeError :=
  (save_decode_failures_distinct_kind (CloudContext.init "https://x.test" "k" "default")
    .null none none ⟨200, "not json", none⟩ rfl).1 rfl

/-- C5: every `save` call issues exactly one request; it is a POST to
`{base}/api/context` whose JSON body is exactly
`{"content": content, "metadata": metadata}`, with the metadata object empty
when the argument is omitted. -/
theorem save_sends_single_post_with_payload
    (c : CloudContext) (content : JVal) (context_id : Option String)
    (transport : Request → Response) :
    (∀ metadata : List (String × JVal),
      (c.save content (some metadata) context_id transport).requests.map
          (fun r => (r.method, r.url, r.body)) =
        [(.POST, c.base_url ++ "/api/context",
          some (.obj [("content", content), ("metadata", .obj metadata)]))]) ∧
    ((c.save content none context_id transport).requests.map
        (fun r => (r.method, r.url, r.body)) =
      [(.POST, c.base_url ++ "/api/context",
        some (.obj [("content", content), ("metadata", .obj [])]))]) := by
  constructor
  · intro metadata
    cases metadata <;> simp [CloudContext.save, pyOrDict]
  · simp [CloudContext.save, pyOrDict]

/-- C7: on a 200 response whose JSON body is an object with a `contexts` key,
`list` returns that key's value verbatim, so the server's order is kept. -/
theorem list_returns_contexts_value
    (c : CloudContext) (resp : Response) (fields : List (String × JVal)) (v : JVal)
    (hstatus : resp.status = 200)
    (hjson : resp.bodyJson = some (.obj fields))
    (hlookup : lookupField fields "contexts" = some v) :
    (c.list (fun _ => resp)).result = .ok v := by
  simp [CloudContext.list, hstatus, hjson, hlookup]

/-- C7 witness: a body `{"contexts": []}` yields the empty sequence and a
body `{"contexts": ["a","b"]}` yields `["a","b"]` in that order. -/
theorem list_returns_contexts_value_witness :
    ((CloudContext.init "https://x.test" "k" "default").list
        (fun _ => ⟨200, "", some (.obj [("contexts", .arr [])])⟩)).result
      = .ok (.arr []) ∧
    ((CloudContext.init "https://x.test" "k" "default").list
        (fun _ => ⟨200, "", some (.obj [("contexts", .arr [.str "a", .str "b"])])⟩)).result
      = .ok (.arr [.str "a", .str "b"]) :=
  ⟨list_returns_contexts_value _ _ _ _ rfl rfl rfl,
   list_returns_contexts_value _ _ _ _ rfl rfl rfl⟩
